import Mathlib

/-!
Shallow embedding of the Scanner_API email-scoring backend
(services/score_calculator.py, services/email_verifier.py,
services/url_scanner.py, services/content_analyzer.py and the
pydantic schemas of models/schemas.py).

Python floats are modelled by exact rationals (ℚ); `round(x, 2)` is
modelled by `round2` below (rounding to 2 decimal places — the
tie-breaking mode is irrelevant to every statement proved here, since
both sides of each equation use the same function).  External HTTP
providers (Hunter.io, VirusTotal) and the ML classifier are modelled
by explicit outcome values passed as arguments: a `requests`
exception that the service catches becomes an explicit error variant,
a JSON payload becomes a record whose fields are `Option`-valued
exactly where the code reads them with `dict.get` and a default.
The opaque `details` passthrough fields of the pydantic models are
not modelled (no claim touches them).
-/

namespace ScannerAPI

/-- Rounding to 2 decimal places, the model of Python `round(x, 2)`. -/
def round2 (q : ℚ) : ℚ := (round (q * 100) : ℚ) / 100

/-! ### models/schemas.py -/

/-- `EmailVerificationResult` of models/schemas.py (pydantic defaults
`score=0.0`, flags `False`, `risk_score=0.0`; `details` omitted). -/
structure EmailVerificationResult where
  valid : Bool
  score : ℚ := 0
  disposable : Bool := false
  webmail : Bool := false
  accept_all : Bool := false
  gibberish : Bool := false
  risk_score : ℚ := 0
deriving DecidableEq, Repr

/-- `URLScanResult` of models/schemas.py (`details` omitted). -/
structure URLScanResult where
  urls_found : List String := []
  malicious_count : ℕ := 0
  suspicious_count : ℕ := 0
  risk_score : ℚ := 0
deriving DecidableEq, Repr

/-- `ContentAnalysisResult` of models/schemas.py. -/
structure ContentAnalysisResult where
  prediction : String
  confidence : ℚ
  risk_score : ℚ := 0
  is_phishing : Bool
deriving DecidableEq, Repr

/-- `CompleteScanResponse` of models/schemas.py. -/
structure CompleteScanResponse where
  scam_score : ℚ
  risk_level : String
  labels : List String := []
  recommendations : List String := []
  email_verification : Option EmailVerificationResult := none
  url_scan : Option URLScanResult := none
  content_analysis : Option ContentAnalysisResult := none
deriving DecidableEq, Repr

/-! ### services/email_verifier.py -/

/-- The `data` object of a successful Hunter.io response; each field is
`Option`-valued because the code reads every one with `dict.get` and a
default (`score` default 50 inside `_calculate_risk_score`, 0 in
`verify_email`; flags default `False`; `result` default `None`). -/
structure HunterData where
  score : Option ℚ := none
  disposable : Option Bool := none
  webmail : Option Bool := none
  accept_all : Option Bool := none
  gibberish : Option Bool := none
  result : Option String := none
deriving DecidableEq, Repr

/-- `EmailVerifier._calculate_risk_score`:
`risk = (100 - data.get("score", 50)) * 0.4`, plus 30 if disposable,
20 if gibberish, 15 if accept_all, 25 if `data.get("result")` is not
`"deliverable"`; returned as `min(risk, 100.0)`. -/
def emailCalculateRiskScore (data : HunterData) : ℚ :=
  min ((100 - data.score.getD 50) * 0.4
      + (if data.disposable.getD false then 30 else 0)
      + (if data.gibberish.getD false then 20 else 0)
      + (if data.accept_all.getD false then 15 else 0)
      + (if data.result = some ("deliverable") then 0 else 25)) 100

/-- `EmailVerifier.verify_email`.  `api_key` is `settings.hunter_api_key`
(sentinel `"##"` means not configured); `response` is the outcome of the
`requests.get` call — `none` for any `RequestException`
(network/timeout/HTTP error), `some data` for a successful response whose
parsed `data` object is `data`.  When the key is the sentinel no call is
made and `response` is ignored. -/
def verify_email (api_key : String) (response : Option HunterData) :
    EmailVerificationResult :=
  if api_key = "##" then
    { valid := true, score := 50, risk_score := 50 }
  else
    match response with
    | some data =>
        { valid := data.result == some ("deliverable")
          score := data.score.getD 0
          disposable := data.disposable.getD false
          webmail := data.webmail.getD false
          accept_all := data.accept_all.getD false
          gibberish := data.gibberish.getD false
          risk_score := emailCalculateRiskScore data }
    | none =>
        { valid := false, score := 0, risk_score := 100 }

/-! ### services/url_scanner.py -/

/-- The `last_analysis_stats` counts a VirusTotal lookup yields for one
URL (each read with `stats.get(_, 0)`; `harmless`/`undetected` are only
echoed into `details` and are not modelled). -/
structure UrlStats where
  malicious : ℕ := 0
  suspicious : ℕ := 0
deriving DecidableEq, Repr

/-- Outcome of the VirusTotal interaction for a single URL:
`found stats` — 200 response carrying `last_analysis_stats`;
`notFound` — 404, the URL is submitted for analysis (whether the
submission succeeds or raises, the returned dict has
`malicious = suspicious = 0`); `error` — any `RequestException`,
likewise counted as 0/0. -/
inductive UrlLookup where
  | found (stats : UrlStats)
  | notFound
  | error
deriving DecidableEq, Repr

/-- `URLScanner._scan_single_url` (together with `_submit_url_for_scan`):
the malicious/suspicious counts of the per-URL result dict. -/
def scan_single_url (outcome : UrlLookup) : UrlStats :=
  match outcome with
  | .found stats => stats
  | .notFound => {}
  | .error => {}

/-- `URLScanner._calculate_risk_score`. -/
def urlCalculateRiskScore (malicious suspicious total : ℕ) : ℚ :=
  if total = 0 then 0
  else
    min (if malicious > 0 then 100
         else if suspicious > 0 then 60 + ((suspicious : ℚ) / total) * 30
         else 0) 100

/-- `URLScanner.scan_urls`.  `urls` is the deduplicated, order-preserving
URL list the external extractor (utils/url_extractor.py, an out-of-scope
collaborator) produced from the email text; `api_key` is
`settings.virustotal_api_key` (sentinel `"##"` = not configured);
`lookup` gives the VirusTotal outcome for each URL. -/
def scan_urls (api_key : String) (urls : List String)
    (lookup : String → UrlLookup) : URLScanResult :=
  if urls = [] then
    { urls_found := [], malicious_count := 0, suspicious_count := 0
      risk_score := 0 }
  else if api_key = "##" then
    { urls_found := urls, malicious_count := 0, suspicious_count := 0
      risk_score := 0 }
  else
    let malicious_count := (urls.map fun u => (scan_single_url (lookup u)).malicious).sum
    let suspicious_count := (urls.map fun u => (scan_single_url (lookup u)).suspicious).sum
    { urls_found := urls
      malicious_count := malicious_count
      suspicious_count := suspicious_count
      risk_score := urlCalculateRiskScore malicious_count suspicious_count urls.length }

/-! ### services/content_analyzer.py -/

/-- Python `max` over a probability vector (`max(prediction_proba)`);
the vector a classifier emits is nonempty, and every use below is under
that hypothesis. -/
def listMax : List ℚ → ℚ
  | [] => 0
  | h :: t => t.foldl max h

/-- Outcome of running the loaded classifier on the text:
`ok label probs` — `model.predict` returned `label` and `predict_proba`
returned the probability vector `probs`; `exn msg` — some step raised,
caught by the `except` clause with message `msg`. -/
inductive ClassifierOutcome where
  | ok (label : String) (probs : List ℚ)
  | exn (msg : String)
deriving DecidableEq, Repr

/-- `ContentAnalyzer._calculate_risk_score`. -/
def contentCalculateRiskScore (is_phishing : Bool) (confidence : ℚ) : ℚ :=
  if is_phishing then confidence * 100 else (1 - confidence) * 100

/-- `ContentAnalyzer.analyze_content`.  `modelAvailable` is
`is_model_available()`; `outcome` is what the vectorize/predict steps did. -/
def analyze_content (modelAvailable : Bool) (outcome : ClassifierOutcome) :
    ContentAnalysisResult :=
  if !modelAvailable then
    { prediction := "Model Not Available", confidence := 0, risk_score := 0
      is_phishing := false }
  else
    match outcome with
    | .ok label probs =>
        let confidence := listMax probs
        let is_phishing := label == "Phishing Email"
        { prediction := label
          confidence := confidence
          risk_score := contentCalculateRiskScore is_phishing confidence
          is_phishing := is_phishing }
    | .exn msg =>
        { prediction := "Error: " ++ msg, confidence := 0, risk_score := 50
          is_phishing := false }

/-! ### services/score_calculator.py -/

/-- `ScoreCalculator._get_risk_level`. -/
def get_risk_level (score : ℚ) : String :=
  if score ≥ 75 then "CRITICAL"
  else if score ≥ 50 then "HIGH"
  else if score ≥ 25 then "MEDIUM"
  else "LOW"

/-- `ScoreCalculator._generate_labels` (a pydantic model instance is
always truthy, so `if email_result:` is an `is not None` test). -/
def generate_labels (email_result : Option EmailVerificationResult)
    (url_result : Option URLScanResult)
    (content_result : Option ContentAnalysisResult) : List String :=
  (match email_result with
   | some er =>
       (if !er.valid then ["Invalid Sender"] else [])
       ++ (if er.disposable then ["Disposable Email"] else [])
       ++ (if er.risk_score > 70 then ["High Risk Sender"] else [])
   | none => [])
  ++ (match url_result with
      | some ur =>
          if ur.malicious_count > 0 then ["Malicious Link Found"]
          else if ur.suspicious_count > 0 then ["Suspicious Link Found"]
          else []
      | none => [])
  ++ (match content_result with
      | some cr =>
          if cr.is_phishing then ["Phishing Content"]
          else if cr.risk_score > 60 then ["Suspicious Content"]
          else []
      | none => [])

/-- `ScoreCalculator._generate_recommendations`. -/
def generate_recommendations (email_result : Option EmailVerificationResult)
    (url_result : Option URLScanResult)
    (content_result : Option ContentAnalysisResult)
    (risk_level : String) : List String :=
  let recs :=
    (if risk_level = "HIGH" ∨ risk_level = "CRITICAL" then
      ["Do not click any links or download attachments from this email.",
       "Mark this email as spam or report it to your IT department."]
     else [])
    ++ (match email_result with
        | some er =>
            if !er.valid || er.disposable then
              ["The sender\x27s email address looks suspicious or temporary."]
            else []
        | none => [])
    ++ (match url_result with
        | some ur =>
            if ur.malicious_count > 0 then
              ["We found " ++ toString ur.malicious_count
                ++ " malicious link(s). Avoid interacting with them."]
            else []
        | none => [])
    ++ (match content_result with
        | some cr =>
            if cr.is_phishing then
              ["The message uses language typical of phishing scams (e.g., creating a sense of urgency)."]
            else []
        | none => [])
  if recs = [] then
    ["This email appears to be safe, but always remain cautious with unexpected messages."]
  else recs

/-- `ScoreCalculator.calculate_score`; the three weights are the
configured `settings.scoring_weights_email/url/content`
(defaults 0.3 / 0.4 / 0.3), taken as parameters. -/
def calculate_score (weight_email weight_url weight_content : ℚ)
    (email_result : Option EmailVerificationResult)
    (url_result : Option URLScanResult)
    (content_result : Option ContentAnalysisResult) : CompleteScanResponse :=
  let total_score :=
    (match email_result with
     | some r => r.risk_score * weight_email
     | none => 0)
    + (match url_result with
       | some r => r.risk_score * weight_url
       | none => 0)
    + (match content_result with
       | some r => r.risk_score * weight_content
       | none => 0)
  let total_weight :=
    (match email_result with
     | some _ => weight_email
     | none => 0)
    + (match url_result with
       | some _ => weight_url
       | none => 0)
    + (match content_result with
       | some _ => weight_content
       | none => 0)
  let scam_score := if total_weight > 0 then total_score / total_weight else 0
  let risk_level := get_risk_level scam_score
  { scam_score := round2 scam_score
    risk_level := risk_level
    labels := generate_labels email_result url_result content_result
    recommendations :=
      generate_recommendations email_result url_result content_result risk_level
    email_verification := email_result
    url_scan := url_result
    content_analysis := content_result }

/-- Spec-side fusion numerator: `Σ present_risk_i * w_i` over exactly the
present signals. -/
def presentNumerator (we wu wc : ℚ) (e : Option EmailVerificationResult)
    (u : Option URLScanResult) (c : Option ContentAnalysisResult) : ℚ :=
  (match e with
   | some r => r.risk_score * we
   | none => 0)
  + (match u with
     | some r => r.risk_score * wu
     | none => 0)
  + (match c with
     | some r => r.risk_score * wc
     | none => 0)

/-- Spec-side fusion denominator: `Σ w_i` over exactly the present
signals. -/
def presentWeight (we wu wc : ℚ) (e : Option EmailVerificationResult)
    (u : Option URLScanResult) (c : Option ContentAnalysisResult) : ℚ :=
  (match e with
   | some _ => we
   | none => 0)
  + (match u with
     | some _ => wu
     | none => 0)
  + (match c with
     | some _ => wc
     | none => 0)

/-! ### Helper lemmas -/

lemma foldl_max_mem (t : List ℚ) : ∀ h : ℚ, t.foldl max h ∈ h :: t := by
  induction t with
  | nil => intro h; simp
  | cons a t ih =>
      intro h
      rw [List.foldl_cons]
      rcases List.mem_cons.mp (ih (max h a)) with hm | hm
      · rcases max_choice h a with hc | hc
        · rw [hm, hc]; exact List.mem_cons_self _ _
        · rw [hm, hc]
          exact List.mem_cons_of_mem _ (List.mem_cons_self _ _)
      · exact List.mem_cons_of_mem _ (List.mem_cons_of_mem _ hm)

lemma self_le_foldl_max (t : List ℚ) : ∀ h : ℚ, h ≤ t.foldl max h := by
  induction t with
  | nil => intro h; simp
  | cons a t ih =>
      intro h
      rw [List.foldl_cons]
      exact le_trans (le_max_left h a) (ih (max h a))

lemma le_foldl_max (t : List ℚ) :
    ∀ h : ℚ, ∀ x ∈ h :: t, x ≤ t.foldl max h := by
  induction t with
  | nil => intro h x hx; simp at hx; simp [hx]
  | cons a t ih =>
      intro h x hx
      rw [List.foldl_cons]
      rcases List.mem_cons.mp hx with hx | hx
      · subst hx
        exact le_trans (le_max_left x a) (self_le_foldl_max t _)
      · rcases List.mem_cons.mp hx with hx | hx
        · subst hx
          exact le_trans (le_max_right h x) (self_le_foldl_max t _)
        · exact ih (max h a) x (List.mem_cons_of_mem _ hx)

lemma listMax_cons (h : ℚ) (t : List ℚ) : listMax (h :: t) = t.foldl max h :=
  rfl

lemma ite_nil_ne_nil (l fb : List String) (hf : fb ≠ []) :
    (if l = [] then fb else l) ≠ [] := by
  split <;> simp_all

lemma generate_recommendations_ne_nil
    (e : Option EmailVerificationResult) (u : Option URLScanResult)
    (c : Option ContentAnalysisResult) (rl : String) :
    generate_recommendations e u c rl ≠ [] := by
  simp only [generate_recommendations]
  exact ite_nil_ne_nil _ _ (by simp)

/-! ### Claim theorems -/

/-- C2: the risk tier is a pure step function of the score with
lower-inclusive boundaries at 25/50/75, and the exact boundary values
24.99/25, 49.99/50, 74.99/75 land on the documented tiers. -/
theorem risk_tier_step_function (s : ℚ) :
    (get_risk_level s =
      if 75 ≤ s then "CRITICAL"
      else if 50 ≤ s then "HIGH"
      else if 25 ≤ s then "MEDIUM"
      else "LOW")
    ∧ get_risk_level 25 = "MEDIUM" ∧ get_risk_level 50 = "HIGH"
    ∧ get_risk_level 75 = "CRITICAL"
    ∧ get_risk_level 24.99 = "LOW" ∧ get_risk_level 49.99 = "MEDIUM"
    ∧ get_risk_level 74.99 = "HIGH" := by
  refine ⟨?_, by decide, by decide, by decide,
    by norm_num [get_risk_level], by norm_num [get_risk_level],
    by norm_num [get_risk_level]⟩
  simp only [get_risk_level, ge_iff_le]

/-- C3: for every successful address-provider response the risk score is
`(100 - quality_score) * 0.4 + 30·disposable + 20·gibberish +
15·accepts_all + 25·(result ≠ "deliverable")` clamped above at 100, and
the concrete instance quality 20 / disposable / deliverable gives 62. -/
theorem address_risk_formula (k : String) (hk : k ≠ "##") (data : HunterData) :
    (verify_email k (some data)).risk_score =
      min ((100 - data.score.getD 50) * 0.4
          + (if data.disposable.getD false then 30 else 0)
          + (if data.gibberish.getD false then 20 else 0)
          + (if data.accept_all.getD false then 15 else 0)
          + (if data.result ≠ some ("deliverable") then 25 else 0)) 100
    ∧ (verify_email k (some { score := some 20
                              disposable := some true
                              gibberish := some false
                              accept_all := some false
                              result := some ("deliverable") })).risk_score
        = 62 := by
  constructor
  · simp only [verify_email, if_neg hk, emailCalculateRiskScore]
    by_cases hd : data.result = some ("deliverable") <;> simp [hd]
  · simp only [verify_email, if_neg hk, emailCalculateRiskScore]
    norm_num

theorem address_risk_formula_witness :
    (verify_email ("key") (some { score := some 20
                                  disposable := some true
                                  gibberish := some false
                                  accept_all := some false
                                  result := some ("deliverable") })).risk_score
      = 62 :=
  (address_risk_formula ("key") (by decide) {}).2

/-- C6: a provider-call failure yields risk 100 with `valid = false`
(fail-closed), while an unconfigured API key yields risk 50 with
`valid = true` (fail-open); both are plain return values. -/
theorem address_failure_modes (k : String) (hk : k ≠ "##")
    (response : Option HunterData) :
    ((verify_email k none).risk_score = 100
      ∧ (verify_email k none).valid = false)
    ∧ ((verify_email ("##") response).risk_score = 50
      ∧ (verify_email ("##") response).valid = true) := by
  refine ⟨⟨?_, ?_⟩, ?_, ?_⟩ <;> simp [verify_email, hk]

theorem address_failure_modes_witness :
    ((verify_email ("key") none).risk_score = 100
      ∧ (verify_email ("key") none).valid = false)
    ∧ ((verify_email ("##") none).risk_score = 50
      ∧ (verify_email ("##") none).valid = true) :=
  address_failure_modes ("key") (by decide) none

/-- C8: every failure mode of a provider call or classifier invocation
still yields an ordinary result value — the caught network error of
`verify_email`, a scan in which every per-URL request errors, and a
classifier exception all return the documented fallback results. -/
theorem signal_failures_return_results (k : String) (hk : k ≠ "##")
    (urls : List String) (hu : urls ≠ []) (msg : String) :
    verify_email k none =
      { valid := false, score := 0, risk_score := 100 }
    ∧ scan_urls k urls (fun _ => .error) =
      { urls_found := urls, malicious_count := 0, suspicious_count := 0
        risk_score := 0 }
    ∧ analyze_content true (.exn msg) =
      { prediction := "Error: " ++ msg, confidence := 0, risk_score := 50
        is_phishing := false } := by
  have ht : urls.length ≠ 0 := fun h => hu (List.length_eq_zero.mp h)
  refine ⟨by simp [verify_email, hk], ?_, rfl⟩
  simp [scan_urls, hu, hk, scan_single_url, urlCalculateRiskScore, ht]

theorem signal_failures_return_results_witness :
    verify_email ("key") none =
      { valid := false, score := 0, risk_score := 100 }
    ∧ scan_urls ("key") ["http://a.example"] (fun _ => .error) =
      { urls_found := ["http://a.example"], malicious_count := 0
        suspicious_count := 0, risk_score := 0 }
    ∧ analyze_content true (.exn ("boom")) =
      { prediction := "Error: " ++ "boom", confidence := 0, risk_score := 50
        is_phishing := false } :=
  signal_failures_return_results ("key") (by decide) ["http://a.example"]
    (by decide) ("boom")

/-- C1: the fused scam score is the weighted average of the risk scores of
exactly the present signals, rounded to 2 decimal places, and 0.0 when no
signal is present; absent signals contribute to neither numerator nor
denominator. -/
theorem fused_score_weighted_average (we wu wc : ℚ)
    (hwe : 0 < we) (hwu : 0 < wu) (hwc : 0 < wc)
    (e : Option EmailVerificationResult) (u : Option URLScanResult)
    (c : Option ContentAnalysisResult) :
    (calculate_score we wu wc e u c).scam_score =
      if e = none ∧ u = none ∧ c = none then 0
      else round2 (presentNumerator we wu wc e u c /
                   presentWeight we wu wc e u c) := by
  have hscam : (calculate_score we wu wc e u c).scam_score =
      round2 (if presentWeight we wu wc e u c > 0
              then presentNumerator we wu wc e u c /
                   presentWeight we wu wc e u c
              else 0) := rfl
  rw [hscam]
  rcases e with _ | er <;> rcases u with _ | ur <;> rcases c with _ | cr
  · norm_num [presentWeight, presentNumerator, round2]
  all_goals
    simp only [presentWeight, presentNumerator, zero_add, add_zero]
  all_goals
    rw [if_pos (by linarith)]
  all_goals
    simp

theorem fused_score_weighted_average_witness :
    (calculate_score 0.3 0.4 0.3
        (some { valid := false, risk_score := 80 })
        (some { risk_score := 100 }) none).scam_score =
      if (some { valid := false, risk_score := 80 } :
            Option EmailVerificationResult) = none
          ∧ (some { risk_score := 100 } : Option URLScanResult) = none
          ∧ (none : Option ContentAnalysisResult) = none
      then 0
      else round2 (presentNumerator 0.3 0.4 0.3
            (some { valid := false, risk_score := 80 })
            (some { risk_score := 100 }) none /
          presentWeight 0.3 0.4 0.3
            (some { valid := false, risk_score := 80 })
            (some { risk_score := 100 }) none) :=
  fused_score_weighted_average 0.3 0.4 0.3 (by norm_num) (by norm_num)
    (by norm_num) _ _ _

lemma analyze_content_ok (label : String) (probs : List ℚ) :
    analyze_content true (.ok label probs) =
      { prediction := label
        confidence := listMax probs
        risk_score := contentCalculateRiskScore (label == "Phishing Email")
          (listMax probs)
        is_phishing := label == "Phishing Email" } := rfl

/-- C5: for every successful classification the reported confidence is the
maximum of the class probabilities and the risk score is
`confidence * 100` for the phishing label, `(1 - confidence) * 100`
otherwise; phishing at confidence 0.92 scores 92 and safe at 0.92 scores
8. -/
theorem content_risk_tracks_confidence (label : String) (probs : List ℚ)
    (hne : probs ≠ []) :
    ((analyze_content true (.ok label probs)).confidence ∈ probs
      ∧ ∀ x ∈ probs, x ≤ (analyze_content true (.ok label probs)).confidence)
    ∧ (analyze_content true (.ok label probs)).risk_score =
        (if label = "Phishing Email"
         then (analyze_content true (.ok label probs)).confidence * 100
         else (1 - (analyze_content true (.ok label probs)).confidence) * 100)
    ∧ (analyze_content true (.ok ("Phishing Email") [0.08, 0.92])).risk_score
        = 92
    ∧ (analyze_content true (.ok ("Safe Email") [0.08, 0.92])).risk_score
        = 8 := by
  obtain ⟨h, t, rfl⟩ : ∃ h t, probs = h :: t := by
    cases probs with
    | nil => exact absurd rfl hne
    | cons h t => exact ⟨h, t, rfl⟩
  have hmax : listMax [0.08, 0.92] = (0.92 : ℚ) := by
    rw [listMax_cons]
    simp only [List.foldl_cons, List.foldl_nil]
    rw [max_eq_right]
    norm_num
  refine ⟨⟨?_, ?_⟩, ?_, ?_, ?_⟩
  · rw [analyze_content_ok]
    show listMax (h :: t) ∈ h :: t
    rw [listMax_cons]
    exact foldl_max_mem t h
  · intro x hx
    rw [analyze_content_ok]
    show x ≤ listMax (h :: t)
    rw [listMax_cons]
    exact le_foldl_max t h x hx
  · rw [analyze_content_ok]
    show contentCalculateRiskScore (label == "Phishing Email")
        (listMax (h :: t)) = _
    by_cases hl : label = "Phishing Email" <;>
      simp [contentCalculateRiskScore, hl, analyze_content_ok]
  · rw [analyze_content_ok, contentCalculateRiskScore, hmax]
    norm_num
  · rw [analyze_content_ok, contentCalculateRiskScore, hmax]
    norm_num
    decide

theorem content_risk_tracks_confidence_witness :
    ((analyze_content true (.ok ("Safe Email") [1])).confidence ∈ [(1 : ℚ)]
      ∧ ∀ x ∈ [(1 : ℚ)],
          x ≤ (analyze_content true (.ok ("Safe Email") [1])).confidence)
    ∧ (analyze_content true (.ok ("Safe Email") [1])).risk_score =
        (if ("Safe Email" : String) = "Phishing Email"
         then (analyze_content true (.ok ("Safe Email") [1])).confidence * 100
         else (1 - (analyze_content true
                (.ok ("Safe Email") [1])).confidence) * 100)
    ∧ (analyze_content true (.ok ("Phishing Email") [0.08, 0.92])).risk_score
        = 92
    ∧ (analyze_content true (.ok ("Safe Email") [0.08, 0.92])).risk_score
        = 8 :=
  content_risk_tracks_confidence ("Safe Email") [1] (by simp)

/-- C10: the recommendations of a fused scan are never empty, and an
all-absent scan yields exactly the single fallback message. -/
theorem recommendations_never_empty (we wu wc : ℚ)
    (e : Option EmailVerificationResult) (u : Option URLScanResult)
    (c : Option ContentAnalysisResult) :
    (calculate_score we wu wc e u c).recommendations ≠ []
    ∧ (calculate_score 0.3 0.4 0.3 none none none).recommendations =
        ["This email appears to be safe, but always remain cautious with unexpected messages."] := by
  constructor
  · exact generate_recommendations_ne_nil e u c _
  · have h1 : (calculate_score 0.3 0.4 0.3 none none none).recommendations =
        generate_recommendations none none none
          (get_risk_level (if ((0 : ℚ) + 0 + 0) > 0
                           then ((0 : ℚ) + 0 + 0) / (0 + 0 + 0)
                           else 0)) := rfl
    rw [h1]
    have h2 : get_risk_level (if ((0 : ℚ) + 0 + 0) > 0
        then ((0 : ℚ) + 0 + 0) / (0 + 0 + 0) else 0) = "LOW" := by
      norm_num [get_risk_level]
    rw [h2]
    decide

lemma scan_urls_configured (k : String) (hk : k ≠ "##") (urls : List String)
    (hu : urls ≠ []) (lookup : String → UrlLookup) :
    scan_urls k urls lookup =
      { urls_found := urls
        malicious_count :=
          (urls.map fun u => (scan_single_url (lookup u)).malicious).sum
        suspicious_count :=
          (urls.map fun u => (scan_single_url (lookup u)).suspicious).sum
        risk_score := urlCalculateRiskScore
          (urls.map fun u => (scan_single_url (lookup u)).malicious).sum
          (urls.map fun u => (scan_single_url (lookup u)).suspicious).sum
          urls.length } := by
  simp [scan_urls, hu, hk]

lemma urlCalc_malicious (m s t : ℕ) (ht : t ≠ 0) (hm : 0 < m) :
    urlCalculateRiskScore m s t = 100 := by
  simp [urlCalculateRiskScore, ht, hm]

lemma urlCalc_suspicious (m s t : ℕ) (ht : t ≠ 0) (hm : m = 0)
    (hs : 0 < s) :
    urlCalculateRiskScore m s t = min (60 + ((s : ℚ) / t) * 30) 100 := by
  subst hm
  simp [urlCalculateRiskScore, ht, hs]

lemma urlCalc_clean (m s t : ℕ) (ht : t ≠ 0) (hm : m = 0) (hs : s = 0) :
    urlCalculateRiskScore m s t = 0 := by
  subst hm; subst hs
  rw [urlCalculateRiskScore, if_neg ht]
  simp

/-- C4 counterexample: one URL whose VirusTotal stats report 10 suspicious
engine hits — malicious_count = 0 and suspicious_count = 10 over
total_urls = 1, so the claimed formula `60 + (suspicious/total)*30` gives
360, but the code returns the clamped value 100. -/
theorem url_risk_suspicious_unclamped_cex :
    (scan_urls ("key") ["http://a.example"]
        (fun _ => .found { suspicious := 10 })).malicious_count = 0
    ∧ (scan_urls ("key") ["http://a.example"]
        (fun _ => .found { suspicious := 10 })).suspicious_count = 10
    ∧ (["http://a.example"] : List String).length = 1
    ∧ (scan_urls ("key") ["http://a.example"]
        (fun _ => .found { suspicious := 10 })).risk_score = 100
    ∧ (60 : ℚ) + ((10 : ℚ) / 1) * 30 ≠ 100 := by
  refine ⟨by decide, by decide, by decide, ?_, by norm_num⟩
  rw [scan_urls_configured ("key") (by decide) _ (by decide)]
  show urlCalculateRiskScore 0 10 1 = 100
  rw [urlCalc_suspicious 0 10 1 (by decide) rfl (by decide)]
  rw [min_eq_right]
  norm_num

/-- C4 (amended): zero extracted URLs give risk 0, an unconfigured
provider gives risk 0, a positive malicious count forces 100, a positive
suspicious count (with no malicious) gives
`min(60 + (suspicious_count/total_urls)*30, 100)` — the code clamps the
suspicious branch above at 100, which the original claim omitted — and
otherwise the risk is 0; suspicious 2 of 4 gives 75. -/
theorem url_risk_score_cases (k : String) (hk : k ≠ "##")
    (urls : List String) (hu : urls ≠ [])
    (lookup : String → UrlLookup) :
    (scan_urls k [] lookup).risk_score = 0
    ∧ (scan_urls ("##") urls lookup).risk_score = 0
    ∧ (0 < (scan_urls k urls lookup).malicious_count →
        (scan_urls k urls lookup).risk_score = 100)
    ∧ ((scan_urls k urls lookup).malicious_count = 0 →
        0 < (scan_urls k urls lookup).suspicious_count →
        (scan_urls k urls lookup).risk_score =
          min (60 + (((scan_urls k urls lookup).suspicious_count : ℚ) /
              urls.length) * 30) 100)
    ∧ ((scan_urls k urls lookup).malicious_count = 0 →
        (scan_urls k urls lookup).suspicious_count = 0 →
        (scan_urls k urls lookup).risk_score = 0)
    ∧ (scan_urls ("key") ["a", "b", "c", "d"]
        (fun u => if u = "a" ∨ u = "b"
                  then .found { suspicious := 1 }
                  else .found {})).risk_score = 75 := by
  have ht : urls.length ≠ 0 := fun h0 => hu (List.length_eq_zero.mp h0)
  have hM : (scan_urls k urls lookup).malicious_count =
      (urls.map fun u => (scan_single_url (lookup u)).malicious).sum := by
    rw [scan_urls_configured k hk urls hu lookup]
  have hS : (scan_urls k urls lookup).suspicious_count =
      (urls.map fun u => (scan_single_url (lookup u)).suspicious).sum := by
    rw [scan_urls_configured k hk urls hu lookup]
  have hR : (scan_urls k urls lookup).risk_score =
      urlCalculateRiskScore
        (urls.map fun u => (scan_single_url (lookup u)).malicious).sum
        (urls.map fun u => (scan_single_url (lookup u)).suspicious).sum
        urls.length := by
    rw [scan_urls_configured k hk urls hu lookup]
  refine ⟨by simp [scan_urls], ?_, ?_, ?_, ?_, ?_⟩
  · simp only [scan_urls]
    split <;> simp
  · intro hm
    rw [hR]
    exact urlCalc_malicious _ _ _ ht (hM ▸ hm)
  · intro hm hs
    rw [hR, hS]
    exact urlCalc_suspicious _ _ _ ht (hM ▸ hm) (hS ▸ hs)
  · intro hm hs
    rw [hR]
    exact urlCalc_clean _ _ _ ht (hM ▸ hm) (hS ▸ hs)
  · rw [scan_urls_configured ("key") (by decide) _ (by decide)]
    show urlCalculateRiskScore 0 2 4 = 75
    rw [urlCalc_suspicious 0 2 4 (by decide) rfl (by decide)]
    rw [min_eq_left] <;> norm_num

theorem url_risk_score_cases_witness :
    (scan_urls ("key") [] (fun _ => UrlLookup.error)).risk_score = 0
    ∧ (scan_urls ("##") ["http://a.example"]
        (fun _ => UrlLookup.error)).risk_score = 0
    ∧ (0 < (scan_urls ("key") ["http://a.example"]
          (fun _ => UrlLookup.error)).malicious_count →
        (scan_urls ("key") ["http://a.example"]
          (fun _ => UrlLookup.error)).risk_score = 100)
    ∧ ((scan_urls ("key") ["http://a.example"]
          (fun _ => UrlLookup.error)).malicious_count = 0 →
        0 < (scan_urls ("key") ["http://a.example"]
          (fun _ => UrlLookup.error)).suspicious_count →
        (scan_urls ("key") ["http://a.example"]
          (fun _ => UrlLookup.error)).risk_score =
          min (60 + (((scan_urls ("key") ["http://a.example"]
              (fun _ => UrlLookup.error)).suspicious_count : ℚ) /
              (["http://a.example"] : List String).length) * 30) 100)
    ∧ ((scan_urls ("key") ["http://a.example"]
          (fun _ => UrlLookup.error)).malicious_count = 0 →
        (scan_urls ("key") ["http://a.example"]
          (fun _ => UrlLookup.error)).suspicious_count = 0 →
        (scan_urls ("key") ["http://a.example"]
          (fun _ => UrlLookup.error)).risk_score = 0)
    ∧ (scan_urls ("key") ["a", "b", "c", "d"]
        (fun u => if u = "a" ∨ u = "b"
                  then .found { suspicious := 1 }
                  else .found {})).risk_score = 75 :=
  url_risk_score_cases ("key") (by decide) ["http://a.example"] (by decide)
    (fun _ => UrlLookup.error)

/-- C7: the code sums per-engine detection counts from each URL's
`last_analysis_stats`, so at the failing input — one extracted URL whose
stats report `malicious = 5` — the scan result has `malicious_count = 5`
while `urls_found` has length 1, violating the documented invariant
`counts ≤ len(urls_found)`. -/
theorem url_counts_exceed_urls_found :
    (scan_urls ("key") ["http://a.example"]
        (fun _ => .found { malicious := 5 })).malicious_count = 5
    ∧ (scan_urls ("key") ["http://a.example"]
        (fun _ => .found { malicious := 5 })).urls_found.length = 1
    ∧ ¬ ((scan_urls ("key") ["http://a.example"]
          (fun _ => .found { malicious := 5 })).malicious_count ≤
        (scan_urls ("key") ["http://a.example"]
          (fun _ => .found { malicious := 5 })).urls_found.length) := by
  refine ⟨by decide, by decide, by decide⟩

lemma mem_ite_singleton {α : Type} (b : Prop) [Decidable b] (x s : α) :
    (s ∈ if b then [x] else []) ↔ b ∧ s = x := by
  split <;> simp_all

lemma mem_ite_chain {α : Type} (b1 b2 : Prop) [Decidable b1] [Decidable b2]
    (x y s : α) :
    (s ∈ if b1 then [x] else if b2 then [y] else []) ↔
      (b1 ∧ s = x) ∨ (¬ b1 ∧ b2 ∧ s = y) := by
  split_ifs <;> simp_all

set_option maxHeartbeats 1600000 in
lemma mem_generate_labels (s : String) (e : Option EmailVerificationResult)
    (u : Option URLScanResult) (c : Option ContentAnalysisResult) :
    s ∈ generate_labels e u c ↔
      (∃ er, e = some er ∧
        ((er.valid = false ∧ s = "Invalid Sender")
         ∨ (er.disposable = true ∧ s = "Disposable Email")
         ∨ (er.risk_score > 70 ∧ s = "High Risk Sender")))
      ∨ (∃ ur, u = some ur ∧
          ((0 < ur.malicious_count ∧ s = "Malicious Link Found")
           ∨ (ur.malicious_count = 0 ∧ 0 < ur.suspicious_count
              ∧ s = "Suspicious Link Found")))
      ∨ (∃ cr, c = some cr ∧
          ((cr.is_phishing = true ∧ s = "Phishing Content")
           ∨ (cr.is_phishing = false ∧ cr.risk_score > 60
              ∧ s = "Suspicious Content"))) := by
  rcases e with _ | er <;> rcases u with _ | ur <;> rcases c with _ | cr <;>
    simp [generate_labels, List.mem_append, mem_ite_singleton,
      mem_ite_chain] <;>
    tauto

/-- C9: labels are produced in the fixed order ("Invalid Sender",
"Disposable Email", "High Risk Sender", link label, content label), each
only when its condition holds, with the two link labels and the two
content labels mutually exclusive; the maximally-risky three-signal
scenario yields exactly the five documented labels in order. -/
theorem labels_order_and_conditions (e : Option EmailVerificationResult)
    (u : Option URLScanResult) (c : Option ContentAnalysisResult) :
    generate_labels
        (some { valid := false, disposable := true, risk_score := 100 })
        (some { urls_found := ["http://a.example"], malicious_count := 5
                suspicious_count := 0, risk_score := 100 })
        (some { prediction := "Phishing Email", confidence := 1
                risk_score := 100, is_phishing := true })
      = ["Invalid Sender", "Disposable Email", "High Risk Sender",
         "Malicious Link Found", "Phishing Content"]
    ∧ ¬ ("Malicious Link Found" ∈ generate_labels e u c
         ∧ "Suspicious Link Found" ∈ generate_labels e u c)
    ∧ ¬ ("Phishing Content" ∈ generate_labels e u c
         ∧ "Suspicious Content" ∈ generate_labels e u c)
    ∧ ("Invalid Sender" ∈ generate_labels e u c ↔
        ∃ er, e = some er ∧ er.valid = false)
    ∧ ("Disposable Email" ∈ generate_labels e u c ↔
        ∃ er, e = some er ∧ er.disposable = true)
    ∧ ("High Risk Sender" ∈ generate_labels e u c ↔
        ∃ er, e = some er ∧ er.risk_score > 70)
    ∧ ("Malicious Link Found" ∈ generate_labels e u c ↔
        ∃ ur, u = some ur ∧ 0 < ur.malicious_count)
    ∧ ("Suspicious Link Found" ∈ generate_labels e u c ↔
        ∃ ur, u = some ur ∧ ur.malicious_count = 0
          ∧ 0 < ur.suspicious_count)
    ∧ ("Phishing Content" ∈ generate_labels e u c ↔
        ∃ cr, c = some cr ∧ cr.is_phishing = true)
    ∧ ("Suspicious Content" ∈ generate_labels e u c ↔
        ∃ cr, c = some cr ∧ cr.is_phishing = false
          ∧ cr.risk_score > 60) := by
  refine ⟨by decide, ?_, ?_, ?_, ?_, ?_, ?_, ?_, ?_, ?_⟩
  · rintro ⟨hA, hB⟩
    rw [mem_generate_labels] at hA hB
    simp at hA hB
    rcases hA with ⟨ur, hu1, hm⟩
    rcases hB with ⟨ur2, hu2, hm2, _⟩
    rw [hu1] at hu2
    cases Option.some.inj hu2
    omega
  · rintro ⟨hA, hB⟩
    rw [mem_generate_labels] at hA hB
    simp at hA hB
    rcases hA with ⟨cr, hc1, hp⟩
    rcases hB with ⟨cr2, hc2, hp2, _⟩
    rw [hc1] at hc2
    cases Option.some.inj hc2
    rw [hp] at hp2
    exact absurd hp2 (by decide)
  all_goals rw [mem_generate_labels]; simp

end ScannerAPI
